import Mathlib

/-!
Verification development for the jelly-bean-world Python API.

The definitions in the first part of this file are shallow embeddings of the
Python modules under `src/api/python/nel` (`direction.py`, `item.py`,
`simulator.py`).  Python floats that are only carried around (scent/color
vectors, energy-function parameters) are modelled as rationals; Python
`assert`/`raise` failures are modelled with `Except String`.

The native simulation engine (`simulator_c`) is not part of the Python
sources; the parts of it that some claims depend on are modelled from the
specification and are clearly marked `Modelled from the spec:` in their doc
comments.
-/

namespace JBW

/-- Absolute directions an agent can face (`nel/direction.py`, `Direction`). -/
inductive Direction
  | up
  | down
  | left
  | right
deriving DecidableEq

/-- Integer value of each `Direction` member (`nel/direction.py`). -/
def Direction.value : Direction → Nat
  | .up => 0
  | .down => 1
  | .left => 2
  | .right => 3

/-- Relative directions along which agents can move (`nel/direction.py`,
`RelativeDirection`). -/
inductive RelativeDirection
  | forward
  | backward
  | left
  | right
deriving DecidableEq

/-- Integer value of each `RelativeDirection` member (`nel/direction.py`). -/
def RelativeDirection.value : RelativeDirection → Nat
  | .forward => 0
  | .backward => 1
  | .left => 2
  | .right => 3

/-- Item intensity functions used by the Gibbs sampler
(`nel/item.py`, `IntensityFunction`). -/
inductive IntensityFunction
  | zero
  | constant
deriving DecidableEq

/-- Integer value of each `IntensityFunction` member (`nel/item.py`:
`ZERO = 0`, `CONSTANT = 1`). -/
def IntensityFunction.value : IntensityFunction → Nat
  | .zero => 0
  | .constant => 1

/-- Item interaction functions used by the Gibbs sampler
(`nel/item.py`, `InteractionFunction`). -/
inductive InteractionFunction
  | zero
  | piecewiseBox
  | cross
deriving DecidableEq

/-- Integer value of each `InteractionFunction` member (`nel/item.py`:
`ZERO = 0`, `PIECEWISE_BOX = 1`, `CROSS = 2`). -/
def InteractionFunction.value : InteractionFunction → Nat
  | .zero => 0
  | .piecewiseBox => 1
  | .cross => 2

/-- Movement conflict policies (`nel/simulator.py`, `MovementConflictPolicy`:
`NO_COLLISIONS = 0`, `FIRST_COME_FIRST_SERVED = 1`, `RANDOM = 2`). -/
inductive MovementConflictPolicy
  | NO_COLLISIONS
  | FIRST_COME_FIRST_SERVED
  | RANDOM
deriving DecidableEq

/-- Integer value of each `MovementConflictPolicy` member
(`nel/simulator.py` lines 35-37). -/
def MovementConflictPolicy.value : MovementConflictPolicy → Nat
  | .NO_COLLISIONS => 0
  | .FIRST_COME_FIRST_SERVED => 1
  | .RANDOM => 2

/-- Action policies (`nel/simulator.py`, `ActionPolicy`).  The member names
are `ALLOWED`, `DISALLOWED`, `IGNORED`. -/
inductive ActionPolicy
  | ALLOWED
  | DISALLOWED
  | IGNORED
deriving DecidableEq

/-- Integer value of each `ActionPolicy` member exactly as assigned in
`nel/simulator.py` lines 46-48: `ALLOWED = 0`, `DISALLOWED = 0`,
`IGNORED = 0`.  (In Python, duplicate enum values make `DISALLOWED` and
`IGNORED` aliases of `ALLOWED`.) -/
def ActionPolicy.value : ActionPolicy → Nat
  | .ALLOWED => 0
  | .DISALLOWED => 0
  | .IGNORED => 0

/-- The per-direction policy values that `Simulator.__init__` transmits to the
native engine (`nel/simulator.py` lines 220-221:
`[d.value for d in sim_config.allowed_movement_directions]`). -/
def transmittedPolicies (l : List ActionPolicy) : List Nat :=
  l.map ActionPolicy.value

/-- One element of one sublist of the Python `interaction_fns` argument of
`Item.__init__` (`nel/item.py`): the first element of each sublist starts out
as an `InteractionFunction` enum member and is overwritten in place with the
member's integer value; the remaining elements are numeric parameters. -/
inductive IFCell
  | fn (f : InteractionFunction)
  | value (n : Nat)
  | arg (q : Rat)
deriving DecidableEq

/-- Whether a cell holds an `InteractionFunction` enum member (the Python test
`type(l[0]) == InteractionFunction`). -/
def IFCell.isFn : IFCell → Bool
  | .fn _ => true
  | .value _ => false
  | .arg _ => false

/-- The per-sublist half of the assertion in `Item.__init__` line 46:
`len(l) > 0 and type(l[0]) == InteractionFunction`. -/
def rowOk (l : List IFCell) : Bool :=
  decide (0 < l.length) && (l.headD (.value 0)).isFn

/-- The in-place mutation performed on one sublist by `Item.__init__` lines
47-48: `l[0] = l[0].value`. -/
def mutateRow : List IFCell → List IFCell
  | [] => []
  | c :: rest =>
    (match c with
     | .fn f => IFCell.value f.value
     | x => x) :: rest

/-- The state of the caller's `interaction_fns` list object after
`Item.__init__` has run its mutation loop over every sublist. -/
def mutateAll (fns : List (List IFCell)) : List (List IFCell) :=
  fns.map mutateRow

/-- An item type as constructed by `Item.__init__` (`nel/item.py`).  Note
`intensity_fn` stores the enum member's integer value (line 43) and
`interaction_fns` stores the (mutated) sublist-of-cells list (line 45). -/
structure Item where
  name : String
  scent : List Rat
  color : List Rat
  required_item_counts : List Nat
  required_item_costs : List Nat
  blocks_movement : Bool
  intensity_fn : Nat
  intensity_fn_args : List Rat
  interaction_fns : List (List IFCell)
deriving DecidableEq

/-- A default item used as the fallback value for list indexing. -/
def dfltItem : Item :=
  { name := "", scent := [], color := [], required_item_counts := [],
    required_item_costs := [], blocks_movement := false, intensity_fn := 0,
    intensity_fn_args := [], interaction_fns := [] }

/-- Embedding of `Item.__init__` (`nel/item.py` lines 10-48).  Python mutates
the caller's `interaction_fns` list in place; the model returns, next to the
constructed item, the list value that the caller's list object holds after
the call.  A failed `assert` is modelled as `Except.error`. -/
def Item.init (name : String) (scent color : List Rat)
    (required_item_counts required_item_costs : List Nat)
    (blocks_movement : Bool) (intensity_fn : IntensityFunction)
    (intensity_fn_args : List Rat) (interaction_fns : List (List IFCell)) :
    Except String (Item × List (List IFCell)) :=
  if interaction_fns.all rowOk then
    .ok ({ name := name, scent := scent, color := color,
           required_item_counts := required_item_counts,
           required_item_costs := required_item_costs,
           blocks_movement := blocks_movement,
           intensity_fn := intensity_fn.value,
           intensity_fn_args := intensity_fn_args,
           interaction_fns := mutateAll interaction_fns },
         mutateAll interaction_fns)
  else
    .error "Each sublist in interaction_fns must contain an InteractionFunction instance as the first element."

/-- Whether an `Except` computation succeeded. -/
def isOkE {α : Type} : Except String α → Bool
  | .ok _ => true
  | .error _ => false

/-- The configuration object built by `SimulatorConfig.__init__`
(`nel/simulator.py` lines 50-105). -/
structure SimulatorConfig where
  max_steps_per_movement : Nat
  allowed_movement_directions : List ActionPolicy
  allowed_turn_directions : List ActionPolicy
  noOpAllowed : Bool
  scent_num_dims : Nat
  color_num_dims : Nat
  vision_range : Nat
  patch_size : Nat
  mcmc_num_iter : Nat
  items : List Item
  agent_color : List Rat
  collision_policy : MovementConflictPolicy
  decay_param : Rat
  diffusion_param : Rat
  deleted_item_lifetime : Nat
  seed : Nat
deriving DecidableEq

/-- Embedding of `SimulatorConfig.__init__` (`nel/simulator.py` lines 53-105).
The `assert` statements are checked in source order; `scent_num_dims` and
`color_num_dims` are the dimensionalities of `items[0]` (lines 88-89).  A
failed `assert` is modelled as `Except.error`. -/
def SimulatorConfig.init (max_steps_per_movement : Nat)
    (allowed_movement_directions allowed_turn_directions : List ActionPolicy)
    (noOpAllowed : Bool) (vision_range patch_size mcmc_num_iter : Nat)
    (items : List Item) (agent_color : List Rat)
    (collision_policy : MovementConflictPolicy)
    (decay_param diffusion_param : Rat)
    (deleted_item_lifetime : Nat) (seed : Nat) :
    Except String SimulatorConfig :=
  if items.length = 0 then
    .error "A non-empty list of items must be provided."
  else if agent_color.length ≠ (items.headD dfltItem).color.length then
    .error "Agent color must have the same dimension as item colors"
  else if ¬ (∀ i ∈ items, i.scent.length = (items.headD dfltItem).scent.length) then
    .error "All items must use the same dimensionality for the scent vector."
  else if ¬ (∀ i ∈ items, i.color.length = (items.headD dfltItem).color.length) then
    .error "All items must use the same dimensionality for the color vector."
  else if ¬ (∀ i ∈ items, i.required_item_counts.length = items.length) then
    .error "The required_item_counts field must be the same dimension as items"
  else if ¬ (∀ i ∈ items, i.required_item_costs.length = items.length) then
    .error "The required_item_costs field must be the same dimension as items"
  else if ¬ (∀ i ∈ items, i.interaction_fns.length = items.length) then
    .error "The interaction_fn_args field must be the same dimension as items"
  else
    .ok { max_steps_per_movement := max_steps_per_movement,
          allowed_movement_directions := allowed_movement_directions,
          allowed_turn_directions := allowed_turn_directions,
          noOpAllowed := noOpAllowed,
          scent_num_dims := (items.headD dfltItem).scent.length,
          color_num_dims := (items.headD dfltItem).color.length,
          vision_range := vision_range,
          patch_size := patch_size,
          mcmc_num_iter := mcmc_num_iter,
          items := items,
          agent_color := agent_color,
          collision_policy := collision_policy,
          decay_param := decay_param,
          diffusion_param := diffusion_param,
          deleted_item_lifetime := deleted_item_lifetime,
          seed := seed }

/-- The observable state the Python `Agent` object stores for one agent
(`nel/agent.py`: `_position`, `_direction`, `_scent`, `_vision`, `_items`).
`implId` models the agent's implementation identifier,
`type(agent).__module__ + "." + type(agent).__name__`, which belongs to the
agent object's class and is untouched by state updates. -/
structure AgentObs where
  position : Int × Int
  direction : Nat
  scent : List Rat
  vision : List Rat
  itemCounts : List Nat
  implId : String
deriving DecidableEq

/-- One element of the `agent_states` list passed to
`Simulator._step_callback`: the tuple
`(position, direction, scent, vision, items, id)` (`nel/simulator.py`
line 347). -/
structure AgentStateMsg where
  position : Int × Int
  direction : Nat
  scent : List Rat
  vision : List Rat
  itemCounts : List Nat
  id : Nat
deriving DecidableEq

/-- The files written by one save event in `Simulator._step_callback` /
`Simulator._save_agents` (`nel/simulator.py` lines 350-352 and 406-412):
the world snapshot file `save_filepath + str(time)`, the agent-info index
file `save_filepath + str(time) + ".agent_info"` whose lines map each agent
id to its implementation identifier, and one per-agent state file
`save_filepath + str(time) + ".agent" + str(agent_id)`. -/
structure Snapshot where
  worldFile : String
  agentInfoFile : String
  agentInfoLines : List (Nat × String)
  agentStateFiles : List String
deriving DecidableEq

/-- The Python-side simulator wrapper state relevant to stepping and saving
(`nel/simulator.py`: `_time`, `agents`, `_save_filepath`,
`_save_frequency`). -/
structure PySimulator where
  time : Nat
  agents : List (Nat × AgentObs)
  save_filepath : Option String
  save_frequency : Nat
deriving DecidableEq

/-- The attribute updates `_step_callback` performs on one agent object
(`nel/simulator.py` line 349): position, direction, scent, vision and item
counts are overwritten; the object's class (hence `implId`) is unchanged. -/
def applyMsg (v : AgentObs) (m : AgentStateMsg) : AgentObs :=
  { v with position := m.position, direction := m.direction,
           scent := m.scent, vision := m.vision, itemCounts := m.itemCounts }

/-- Dictionary lookup `self.agents[id]` on the id-keyed agent map. -/
def lookupA : List (Nat × AgentObs) → Nat → Option AgentObs
  | [], _ => none
  | kv :: rest, i => if i = kv.1 then some kv.2 else lookupA rest i

/-- Applying one agent-state tuple to the agent map: the entry whose key is
the tuple's id has its observable state overwritten. -/
def updateAgent (ags : List (Nat × AgentObs)) (m : AgentStateMsg) :
    List (Nat × AgentObs) :=
  ags.map (fun kv => if kv.1 = m.id then (kv.1, applyMsg kv.2 m) else kv)

/-- The update loop of `_step_callback` (`nel/simulator.py` lines 346-349). -/
def applyMsgs (ags : List (Nat × AgentObs)) (msgs : List AgentStateMsg) :
    List (Nat × AgentObs) :=
  msgs.foldl updateAgent ags

/-- Embedding of `Simulator._step_callback` (`nel/simulator.py` lines
337-353): increments `_time` by one, applies every agent-state tuple to the
agent map, and, when a save path is configured and the new time is a
multiple of the save frequency, emits the snapshot files written by
`simulator_c.save` and `_save_agents`. -/
def stepCallback (s : PySimulator) (msgs : List AgentStateMsg) :
    PySimulator × Option Snapshot :=
  let t := s.time + 1
  let ags := applyMsgs s.agents msgs
  match s.save_filepath with
  | none => ({ s with time := t, agents := ags }, none)
  | some fp =>
    if t % s.save_frequency = 0 then
      ({ s with time := t, agents := ags },
       some { worldFile := fp ++ toString t,
              agentInfoFile := fp ++ toString t ++ ".agent_info",
              agentInfoLines := ags.map (fun kv => (kv.1, kv.2.implId)),
              agentStateFiles :=
                ags.map (fun kv => fp ++ toString t ++ ".agent" ++ toString kv.1) })
    else ({ s with time := t, agents := ags }, none)

/-- Modelled from the spec: the native engine's per-item-type data the
claims need (spec section 3, ItemType): scent vector, `blocks_movement`,
and the per-type `required_item_counts` / `required_item_costs` vectors.
The native item-type table is not under `src/`. -/
structure SpecItemType where
  scent : List Rat
  blocks_movement : Bool
  required_item_counts : List Nat
  required_item_costs : List Nat
deriving DecidableEq

/-- A default item type used as the fallback value for list indexing. -/
def dfltType : SpecItemType :=
  { scent := [], blocks_movement := false, required_item_counts := [],
    required_item_costs := [] }

/-- Modelled from the spec: the engine configuration fields the modelled
claims depend on (spec section 6). -/
structure SpecConfig where
  seed : Nat
  patch_size : Nat
  max_steps_per_movement : Nat
  collision_policy : MovementConflictPolicy
  itemTypes : List SpecItemType
  deleted_item_lifetime : Nat
deriving DecidableEq

/-- Modelled from the spec: a patch (spec section 3): a `fixed` flag, true
once sampled and never cleared, plus the materialized items, each a cell
position paired with an item-type index. -/
structure Patch where
  fixed : Bool
  items : List ((Int × Int) × Nat)
deriving DecidableEq

/-- The world store: generated patches indexed by patch coordinate. -/
abbrev Store := List ((Int × Int) × Patch)

/-- Lookup of a patch by patch coordinate in the world store. -/
def Store.find : Store → (Int × Int) → Option Patch
  | [], _ => none
  | cp :: rest, c => if c = cp.1 then some cp.2 else Store.find rest c

/-- A deterministic integer mixing function standing in for the engine's
seeded pseudorandom stream. -/
def mix (a b : Nat) : Nat :=
  (a * 6364136223846793005 + b * 1442695040888963407 + 2531011) % 18446744073709551616

/-- An injective encoding of an integer as a natural number. -/
def encodeZ (z : Int) : Nat :=
  if 0 ≤ z then 2 * z.toNat else 2 * (-z).toNat - 1

/-- An injective encoding of an integer grid position as a natural number. -/
def encodePos (p : Int × Int) : Nat :=
  Nat.pair (encodeZ p.1) (encodeZ p.2)

/-- Modelled from the spec: the native Gibbs-sampling patch generator (spec
section 4.1), which is not under `src/`.  The spec requires that the
sampling stream be seeded from the configured seed so that two simulators
with identical seed and identical query order produce bit-identical maps;
the claims settled against this model depend only on that determinism and
on the fixed-flag discipline, so the Gibbs iterations are abstracted into a
deterministic placement computed from the seed and the patch coordinate.
The resulting patch is marked `fixed`. -/
def genPatch (cfg : SpecConfig) (c : Int × Int) : Patch :=
  let h := mix cfg.seed (encodePos c)
  let n := cfg.itemTypes.length
  let sz := max cfg.patch_size 1
  let items :=
    if n = 0 then []
    else if h % 3 = 0 then []
    else [((c.1 * (sz : Int) + ((h / 3) % sz : Nat),
            c.2 * (sz : Int) + ((h / 7) % sz : Nat)), (h / 11) % n)]
  { fixed := true, items := items }

/-- Modelled from the spec: `get_or_generate(patch_coord)` (spec section
4.1): on first access the patch is sampled and stored; once present (fixed)
it is returned unchanged and never resampled. -/
def getOrGenerate (cfg : SpecConfig) (st : Store) (c : Int × Int) :
    Patch × Store :=
  match Store.find st c with
  | some p => (p, st)
  | none =>
    let p := genPatch cfg c
    (p, (c, p) :: st)

/-- Generation fold underlying a bounded-box map query: visits the listed
patch coordinates in order, generating any patch not yet materialized. -/
def foldGen (cfg : SpecConfig) : Store → List (Int × Int) →
    List ((Int × Int) × Patch) × Store
  | st, [] => ([], st)
  | st, c :: rest =>
    let pr := getOrGenerate cfg st c
    let tl := foldGen cfg pr.2 rest
    ((c, pr.1) :: tl.1, tl.2)

/-- The patch coordinate containing a grid position: floor division of each
component by the patch size (spec section 3). -/
def patchCoordOf (n : Nat) (p : Int × Int) : Int × Int :=
  (p.1.fdiv n, p.2.fdiv n)

/-- The inclusive list of integers from `a` to `b`. -/
def coordRange (a b : Int) : List Int :=
  (List.range (b - a + 1).toNat).map (fun k => a + (k : Int))

/-- The patch coordinates of all patches intersecting the bounding box with
the given bottom-left and top-right corners. -/
def patchCoords (n : Nat) (bl tr : Int × Int) : List (Int × Int) :=
  ((coordRange (Int.fdiv bl.1 n) (Int.fdiv tr.1 n)).map (fun x =>
    (coordRange (Int.fdiv bl.2 n) (Int.fdiv tr.2 n)).map (fun y => (x, y)))).flatten

/-- Modelled from the spec: the world-store bounded-box map query (spec
section 4.3 and `Simulator._map`): returns all patches intersecting the
bounding box, generating any not yet materialized, and the updated store. -/
def queryMap (cfg : SpecConfig) (st : Store) (bl tr : Int × Int) :
    List ((Int × Int) × Patch) × Store :=
  foldGen cfg st (patchCoords cfg.patch_size bl tr)

/-- Pointwise sum of two scent vectors. -/
def vecAdd (a b : List Rat) : List Rat := List.zipWith (· + ·) a b

/-- A scent vector scaled by a rational factor. -/
def vecScale (q : Rat) (v : List Rat) : List Rat := v.map (fun x => q * x)

/-- Squared Euclidean distance between two grid cells. -/
def sqDist (a b : Int × Int) : Nat :=
  ((a.1 - b.1) ^ 2 + (a.2 - b.2) ^ 2).toNat

/-- Modelled from the spec: the scent field (spec section 4.2), which is not
under `src/`.  Each item contributes its type's scent attenuated with
distance; the exponential decay kernel is abstracted to the rational kernel
`1 / (1 + squared distance)`, which preserves the only property the claims
use: the field is a deterministic function of the item placements. -/
def scentAt (cfg : SpecConfig) (st : Store) (p : Int × Int) : List Rat :=
  st.foldl
    (fun acc cp =>
      cp.2.items.foldl
        (fun acc2 it =>
          vecAdd acc2
            (vecScale (1 / (1 + (sqDist p it.1 : Rat)))
              ((cfg.itemTypes.getD it.2 dfltType).scent)))
        acc)
    (List.replicate ((cfg.itemTypes.headD dfltType).scent.length) 0)

/-- Modelled from the spec: the auto-collection eligibility test (spec
section 4.4): an item of type `t` at the agent's cell is collected
automatically iff, for every item type `j`, the agent's running collected
count of `j` is at least `required_item_counts[j]` for type `t`. -/
def canCollect (types : List SpecItemType) (counts : List Nat) (t : Nat) :
    Bool :=
  decide (t < types.length) &&
  (List.range types.length).all (fun j =>
    decide ((types.getD t dfltType).required_item_counts.getD j 0 ≤ counts.getD j 0))

/-- Modelled from the spec: the updated collected-item counts after
collecting one item of type `t`: the count of `t` is incremented and
`required_item_costs[j]` for type `t` is deducted from the count of each
type `j`. -/
def newCounts (types : List SpecItemType) (counts : List Nat) (t : Nat) :
    List Nat :=
  (List.range types.length).map (fun j =>
    counts.getD j 0 + (if j = t then 1 else 0)
      - (types.getD t dfltType).required_item_costs.getD j 0)

/-- Modelled from the spec: auto-collection at the agent's new cell (spec
section 4.4).  Input: the item at the cell (if any) and the agent's counts;
output: the item remaining at the cell (collection removes it, entering its
tombstone lifetime) and the updated counts. -/
def autoCollect (types : List SpecItemType) (item : Option Nat)
    (counts : List Nat) : Option Nat × List Nat :=
  match item with
  | none => (none, counts)
  | some t =>
    if canCollect types counts t then (none, newCounts types counts t)
    else (some t, counts)

/-- Current position of the agent at index `k` of a resolution input list of
(current position, resolved destination) pairs, one per agent. -/
def curP (l : List ((Int × Int) × (Int × Int))) (k : Nat) : Int × Int :=
  (l.getD k ((0, 0), (0, 0))).1

/-- Resolved destination of the agent at index `k` of a resolution input
list. -/
def destP (l : List ((Int × Int) × (Int × Int))) (k : Nat) : Int × Int :=
  (l.getD k ((0, 0), (0, 0))).2

/-- Modelled from the spec: success of agent `k` under `NO_COLLISIONS`
(spec section 4.4): the move succeeds only when its destination coincides
neither with any other agent's resolved destination nor with any other
agent's current cell; coinciding destinations make all such moves fail. -/
def ncOk (l : List ((Int × Int) × (Int × Int))) (k : Nat) : Bool :=
  (List.range l.length).all (fun j =>
    (j == k) || (decide (destP l k ≠ destP l j) && decide (destP l k ≠ curP l j)))

/-- Post-resolution position of agent `k` under `NO_COLLISIONS`: its
destination when the move succeeded, its current cell otherwise. -/
def ncPost (l : List ((Int × Int) × (Int × Int))) (k : Nat) : Int × Int :=
  if ncOk l k then destP l k else curP l k

/-- Post-resolution positions of all agents under `NO_COLLISIONS`. -/
def ncResolve (l : List ((Int × Int) × (Int × Int))) : List (Int × Int) :=
  (List.range l.length).map (ncPost l)

/-- Modelled from the spec: success of agent `k` under
`FIRST_COME_FIRST_SERVED` (spec section 4.4): list order is intent arrival
order within the step; the move succeeds when the destination is not any
other agent's current cell and no earlier-arriving agent resolved to the
same destination. -/
def fcfsOk (l : List ((Int × Int) × (Int × Int))) (k : Nat) : Bool :=
  decide (k < l.length) &&
  ((List.range l.length).all (fun j =>
    (j == k) || decide (destP l k ≠ curP l j))) &&
  ((List.range k).all (fun j => decide (destP l k ≠ destP l j)))

/-- Post-resolution position of agent `k` under `FIRST_COME_FIRST_SERVED`. -/
def fcfsPost (l : List ((Int × Int) × (Int × Int))) (k : Nat) : Int × Int :=
  if fcfsOk l k then destP l k else curP l k

/-- Post-resolution positions of all agents under
`FIRST_COME_FIRST_SERVED`. -/
def fcfsResolve (l : List ((Int × Int) × (Int × Int))) : List (Int × Int) :=
  (List.range l.length).map (fcfsPost l)

/-- Modelled from the spec: success of agent `k` under `RANDOM` (spec
section 4.4): a winner among the movers contending for one destination is
chosen using the simulator's seeded stream. -/
def randomOk (rng : Nat) (l : List ((Int × Int) × (Int × Int))) (k : Nat) :
    Bool :=
  if curP l k = destP l k then true
  else
    ((List.range l.length).all (fun j =>
      (j == k) || decide (destP l k ≠ curP l j))) &&
    (let group := (List.range l.length).filter (fun j =>
        decide (destP l j = destP l k) && decide (curP l j ≠ destP l j))
     group.getD (mix rng (encodePos (destP l k)) % max group.length 1) 0 == k)

/-- Post-resolution position of agent `k` under `RANDOM`. -/
def randomPost (rng : Nat) (l : List ((Int × Int) × (Int × Int))) (k : Nat) :
    Int × Int :=
  if randomOk rng l k then destP l k else curP l k

/-- Post-resolution positions of all agents under the configured movement
conflict policy. -/
def resolvePositions (cfg : SpecConfig) (rng : Nat)
    (l : List ((Int × Int) × (Int × Int))) : List (Int × Int) :=
  match cfg.collision_policy with
  | .NO_COLLISIONS => ncResolve l
  | .FIRST_COME_FIRST_SERVED => fcfsResolve l
  | .RANDOM => (List.range l.length).map (randomPost rng l)

/-- Modelled from the spec: one agent's engine-side state (spec section 3,
AgentState): id, position, facing direction, collected-item counts. -/
structure SpecAgent where
  id : Nat
  pos : Int × Int
  facing : Direction
  counts : List Nat
deriving DecidableEq

/-- Modelled from the spec: one agent intent for one step (spec section
4.4): a move (relative direction and number of steps), a turn, or a
no-op. -/
inductive Intent
  | move (r : RelativeDirection) (steps : Nat)
  | turn (r : RelativeDirection)
  | nop
deriving DecidableEq

/-- The intent submitted by the agent with the given id this step; a missing
intent is treated as a no-op (the per-agent timeout / no-op rule, spec
section 5). -/
def intentOf : List (Nat × Intent) → Nat → Intent
  | [], _ => .nop
  | ni :: rest, i => if i = ni.1 then ni.2 else intentOf rest i

/-- Counterclockwise quarter turn of an absolute direction. -/
def turnLeft : Direction → Direction
  | .up => .left
  | .left => .down
  | .down => .right
  | .right => .up

/-- Clockwise quarter turn of an absolute direction. -/
def turnRight : Direction → Direction
  | .up => .right
  | .right => .down
  | .down => .left
  | .left => .up

/-- The absolute direction obtained by applying a relative direction to the
agent's facing. -/
def applyTurn (d : Direction) : RelativeDirection → Direction
  | .forward => d
  | .backward => turnLeft (turnLeft d)
  | .left => turnLeft d
  | .right => turnRight d

/-- Unit displacement of an absolute direction on the grid. -/
def dirVec : Direction → Int × Int
  | .up => (0, 1)
  | .down => (0, -1)
  | .left => (-1, 0)
  | .right => (1, 0)

/-- Modelled from the spec: the destination an intent asks for (spec section
4.4).  Moves of more than `max_steps_per_movement` grid steps fail, leaving
the agent in place; turns and no-ops do not displace the agent. -/
def intendedDest (cfg : SpecConfig) (a : SpecAgent) : Intent → Int × Int
  | .move r k =>
    if k ≤ cfg.max_steps_per_movement then
      let v := dirVec (applyTurn a.facing r)
      (a.pos.1 + (k : Int) * v.1, a.pos.2 + (k : Int) * v.2)
    else a.pos
  | .turn _ => a.pos
  | .nop => a.pos

/-- The item-type index of the item occupying a cell in one patch's item
list, if any. -/
def findItem : List ((Int × Int) × Nat) → (Int × Int) → Option Nat
  | [], _ => none
  | it :: rest, p => if p = it.1 then some it.2 else findItem rest p

/-- The item-type index of the item occupying a cell anywhere in the world
store, if any. -/
def itemAtCell : Store → (Int × Int) → Option Nat
  | [], _ => none
  | cp :: rest, p =>
    match findItem cp.2.items p with
    | some t => some t
    | none => itemAtCell rest p

/-- A patch item list with any item at the given cell removed. -/
def removeCell (p : Int × Int) (l : List ((Int × Int) × Nat)) :
    List ((Int × Int) × Nat) :=
  l.filter (fun it => decide (it.1 ≠ p))

/-- The world store after removing the item at the given cell (collection;
the tombstone retention is outside the store model). -/
def removeItemAt (st : Store) (p : Int × Int) : Store :=
  st.map (fun cp => (cp.1, { cp.2 with items := removeCell p cp.2.items }))

/-- Whether the cell holds an item whose type blocks movement (spec section
4.4: movement into a blocking cell always fails). -/
def blockedAt (cfg : SpecConfig) (st : Store) (p : Int × Int) : Bool :=
  match itemAtCell st p with
  | some t => (cfg.itemTypes.getD t dfltType).blocks_movement
  | none => false

/-- Generates, in order, every listed patch coordinate not yet in the
store. -/
def ensurePatches (cfg : SpecConfig) : Store → List (Int × Int) → Store
  | st, [] => st
  | st, c :: rest => ensurePatches cfg (getOrGenerate cfg st c).2 rest

/-- Applies the post-resolution positions to the agents, updating facing for
turn intents (moves do not change facing). -/
def applyMoves : List (SpecAgent × Intent) → List (Int × Int) → List SpecAgent
  | [], _ => []
  | ai :: rest, [] =>
    { ai.1 with facing := match ai.2 with
                          | .turn r => applyTurn ai.1.facing r
                          | _ => ai.1.facing } :: applyMoves rest []
  | ai :: rest, p :: ps =>
    { ai.1 with pos := p,
                facing := match ai.2 with
                          | .turn r => applyTurn ai.1.facing r
                          | _ => ai.1.facing } :: applyMoves rest ps

/-- Modelled from the spec: after movement is applied, auto-collection is
evaluated per agent in order (spec section 4.4); a collected item is removed
from the store. -/
def collectAll (cfg : SpecConfig) : List SpecAgent → Store →
    List SpecAgent × Store
  | [], st => ([], st)
  | a :: rest, st =>
    let found := itemAtCell st a.pos
    let res := autoCollect cfg.itemTypes found a.counts
    let st2 :=
      match found, res.1 with
      | some _, none => removeItemAt st a.pos
      | _, _ => st
    let tl := collectAll cfg rest st2
    ({ a with counts := res.2 } :: tl.1, tl.2)

/-- Modelled from the spec: the full engine state at one logical step:
logical time, world store, agent states, and the seeded pseudorandom
stream's state. -/
structure SimState where
  time : Nat
  store : Store
  agents : List SpecAgent
  rng : Nat
deriving DecidableEq

/-- Modelled from the spec: one engine step (spec section 4.4): every
active agent's intent is resolved to a destination, destination patches are
generated on demand, moves into blocking cells fail, the configured
movement-conflict policy resolves coinciding destinations, movement and
turns are applied, auto-collection runs per agent, and logical time
advances by exactly one. -/
def specStep (cfg : SpecConfig) (s : SimState) (intents : List (Nat × Intent)) :
    SimState :=
  let acts := s.agents.map (fun a => (a, intentOf intents a.id))
  let dests0 := acts.map (fun ai => intendedDest cfg ai.1 ai.2)
  let store1 := ensurePatches cfg s.store (dests0.map (patchCoordOf cfg.patch_size))
  let pairs := acts.map (fun ai =>
    let d := intendedDest cfg ai.1 ai.2
    (ai.1.pos, if blockedAt cfg store1 d then ai.1.pos else d))
  let post := resolvePositions cfg s.rng pairs
  let moved := applyMoves acts post
  let collected := collectAll cfg moved store1
  { time := s.time + 1, store := collected.2, agents := collected.1,
    rng := mix s.rng (s.time + 1) }

/-- Modelled from the spec: the deterministic spawn position of the `i`-th
initially added agent, derived from the configured seed. -/
def spawnPos (cfg : SpecConfig) (i : Nat) : Int × Int :=
  ((mix cfg.seed (2 * i + 1) % 64 : Nat), (mix cfg.seed (2 * i + 2) % 64 : Nat))

/-- Modelled from the spec: the engine state at logical time zero with the
given number of initially added agents, all state derived from the
configured seed. -/
def initState (cfg : SpecConfig) (numAgents : Nat) : SimState :=
  { time := 0,
    store := [],
    agents := (List.range numAgents).map (fun i =>
      { id := i, pos := spawnPos cfg i, facing := .up,
        counts := List.replicate cfg.itemTypes.length 0 }),
    rng := mix cfg.seed 0 }

/-- The sequence of engine states visited while feeding one list of per-step
intent lists, starting state included. -/
def runSteps (cfg : SpecConfig) : SimState → List (List (Nat × Intent)) →
    List SimState
  | s, [] => [s]
  | s, i :: rest => s :: runSteps cfg (specStep cfg s i) rest

/-- The observables the serialization test compares between two simulators
(`test/serialization_test.py`, `compare_simulators`): logical time, every
generated patch keyed by patch coordinate (fixed flag and items), and every
agent's id and position. -/
def observe (s : SimState) : Nat × Store × List (Nat × (Int × Int)) :=
  (s.time, s.store, s.agents.map (fun a => (a.id, a.pos)))

/-- C1: For every pair of simulators constructed with equal seed (equal
configuration) and equal initial agent sets and fed an equal sequence of
agent intents, the two simulators produce identical observables at every
logical step: identical patches per patch coordinate (fixed flags and
items), identical scent fields, and identical agent trajectories. -/
theorem specSimulators_equal_seed_equal_intents_identical
    (cfg1 cfg2 : SpecConfig) (n1 n2 : Nat)
    (seq1 seq2 : List (List (Nat × Intent)))
    (hcfg : cfg1 = cfg2) (hn : n1 = n2) (hseq : seq1 = seq2) :
    (runSteps cfg1 (initState cfg1 n1) seq1).map observe =
      (runSteps cfg2 (initState cfg2 n2) seq2).map observe ∧
    (runSteps cfg1 (initState cfg1 n1) seq1).map
        (fun s => fun p => scentAt cfg1 s.store p) =
      (runSteps cfg2 (initState cfg2 n2) seq2).map
        (fun s => fun p => scentAt cfg2 s.store p) := by
  subst hcfg
  subst hn
  subst hseq
  exact ⟨rfl, rfl⟩

/-- Witness for C1 at a concrete configuration, one agent, and a two-step
intent sequence. -/
theorem specSimulators_equal_seed_equal_intents_identical_witness :
    (runSteps ⟨7, 4, 3, .NO_COLLISIONS, [⟨[1], false, [0], [0]⟩], 10⟩
        (initState ⟨7, 4, 3, .NO_COLLISIONS, [⟨[1], false, [0], [0]⟩], 10⟩ 1)
        [[(0, .move .forward 1)], [(0, .turn .left)]]).map observe =
      (runSteps ⟨7, 4, 3, .NO_COLLISIONS, [⟨[1], false, [0], [0]⟩], 10⟩
        (initState ⟨7, 4, 3, .NO_COLLISIONS, [⟨[1], false, [0], [0]⟩], 10⟩ 1)
        [[(0, .move .forward 1)], [(0, .turn .left)]]).map observe ∧
    (runSteps ⟨7, 4, 3, .NO_COLLISIONS, [⟨[1], false, [0], [0]⟩], 10⟩
        (initState ⟨7, 4, 3, .NO_COLLISIONS, [⟨[1], false, [0], [0]⟩], 10⟩ 1)
        [[(0, .move .forward 1)], [(0, .turn .left)]]).map
        (fun s => fun p => scentAt ⟨7, 4, 3, .NO_COLLISIONS, [⟨[1], false, [0], [0]⟩], 10⟩ s.store p) =
      (runSteps ⟨7, 4, 3, .NO_COLLISIONS, [⟨[1], false, [0], [0]⟩], 10⟩
        (initState ⟨7, 4, 3, .NO_COLLISIONS, [⟨[1], false, [0], [0]⟩], 10⟩ 1)
        [[(0, .move .forward 1)], [(0, .turn .left)]]).map
        (fun s => fun p => scentAt ⟨7, 4, 3, .NO_COLLISIONS, [⟨[1], false, [0], [0]⟩], 10⟩ s.store p) :=
  specSimulators_equal_seed_equal_intents_identical _ _ _ _ _ _ rfl rfl rfl

/-- C2: The claim that the three ActionPolicy members are distinct policies
fails on the code: lines 46-48 of `nel/simulator.py` assign the value 0 to
all three members, so `DISALLOWED` and `IGNORED` are Python enum aliases of
`ALLOWED`, and the per-direction policy list that `Simulator.__init__`
transmits to the native engine is the same regardless of which member the
user configured. -/
theorem actionPolicy_values_not_distinct :
    ActionPolicy.value .DISALLOWED = ActionPolicy.value .ALLOWED ∧
    ActionPolicy.value .IGNORED = ActionPolicy.value .ALLOWED ∧
    transmittedPolicies [.DISALLOWED, .IGNORED, .DISALLOWED, .IGNORED] =
      transmittedPolicies [.ALLOWED, .ALLOWED, .ALLOWED, .ALLOWED] :=
  ⟨rfl, rfl, rfl⟩

/-- C10 counterexample: with the empty `interaction_fns` list the first
`Item` construction succeeds, the mutation loop touches nothing, and a
second construction with the same (unchanged) list object also succeeds, so
no assertion error is raised; this refutes the claim's universal
quantification over every list. -/
theorem item_init_empty_interaction_fns_second_ok :
    isOkE (Item.init "b" [] [] [] [] false .zero [] []) = true ∧
    mutateAll ([] : List (List IFCell)) = [] ∧
    isOkE (Item.init "b" [] [] [] [] false .zero []
      (mutateAll ([] : List (List IFCell)))) = true :=
  ⟨rfl, rfl, rfl⟩

/-- Helper: a row accepted by the assertion in `Item.__init__` is a cons
cell headed by an `InteractionFunction` member. -/
theorem rowOk_shape {l : List IFCell} (h : rowOk l = true) :
    ∃ f t, l = IFCell.fn f :: t := by
  unfold rowOk at h
  rw [Bool.and_eq_true] at h
  obtain ⟨h1, h2⟩ := h
  rw [decide_eq_true_iff] at h1
  cases l with
  | nil => simp at h1
  | cons c t =>
    cases c with
    | fn f => exact ⟨f, t, rfl⟩
    | value n => simp [IFCell.isFn, List.headD] at h2
    | arg q => simp [IFCell.isFn, List.headD] at h2

/-- C10 (amended): for every nonempty `interaction_fns` list accepted by a
first `Item` construction, every sublist is headed by an
`InteractionFunction` member, the mutation loop overwrites each sublist's
head in place with the member's integer value (the item and the caller's
list object share the mutated list), and a second `Item` construction
passing the same list object fails its assertion because the first element
is no longer an `InteractionFunction` instance.  (With an empty
`interaction_fns` list the mutation is vacuous and a second construction
succeeds.) -/
theorem item_init_mutates_interaction_fns
    (name : String) (scent color : List Rat)
    (rc rco : List Nat) (b : Bool) (ifn : IntensityFunction) (ia : List Rat)
    (fns : List (List IFCell)) (pr : Item × List (List IFCell))
    (hok : Item.init name scent color rc rco b ifn ia fns = .ok pr) :
    pr.2 = mutateAll fns ∧
    pr.1.interaction_fns = mutateAll fns ∧
    (∀ row ∈ fns, ∃ f t, row = IFCell.fn f :: t ∧
      mutateRow row = IFCell.value f.value :: t) ∧
    (fns ≠ [] →
      isOkE (Item.init name scent color rc rco b ifn ia pr.2) = false) := by
  unfold Item.init at hok
  by_cases h : fns.all rowOk = true
  · rw [if_pos h] at hok
    injection hok with hpr
    subst hpr
    refine ⟨rfl, rfl, ?_, ?_⟩
    · intro row hrow
      have hr : rowOk row = true := by
        rw [List.all_eq_true] at h
        exact h row hrow
      obtain ⟨f, t, rfl⟩ := rowOk_shape hr
      exact ⟨f, t, rfl, rfl⟩
    · intro hne
      obtain ⟨r, rest, rfl⟩ := List.exists_cons_of_ne_nil hne
      have hr : rowOk r = true := by
        rw [List.all_eq_true] at h
        exact h r (List.mem_cons_self r rest)
      obtain ⟨f, t, rfl⟩ := rowOk_shape hr
      unfold Item.init
      rw [if_neg ?_]
      · rfl
      · simp [mutateAll, mutateRow, rowOk, IFCell.isFn]
  · rw [if_neg h] at hok
    exact absurd hok (by simp)

/-- Witness for C10 at a concrete one-row interaction list. -/
theorem item_init_mutates_interaction_fns_witness :
    ((⟨"b", [1], [2], [0], [0], true, 1, [5],
        [[IFCell.value 0, IFCell.arg 3]]⟩ : Item),
      [[IFCell.value 0, IFCell.arg 3]]).2 =
        mutateAll [[IFCell.fn .zero, IFCell.arg 3]] ∧
    ((⟨"b", [1], [2], [0], [0], true, 1, [5],
        [[IFCell.value 0, IFCell.arg 3]]⟩ : Item),
      [[IFCell.value 0, IFCell.arg 3]]).1.interaction_fns =
        mutateAll [[IFCell.fn .zero, IFCell.arg 3]] ∧
    (∀ row ∈ [[IFCell.fn InteractionFunction.zero, IFCell.arg 3]],
      ∃ f t, row = IFCell.fn f :: t ∧
        mutateRow row = IFCell.value f.value :: t) ∧
    ([[IFCell.fn InteractionFunction.zero, IFCell.arg 3]] ≠
        ([] : List (List IFCell)) →
      isOkE (Item.init "b" [1] [2] [0] [0] true .constant [5]
        ((⟨"b", [1], [2], [0], [0], true, 1, [5],
            [[IFCell.value 0, IFCell.arg 3]]⟩ : Item),
          [[IFCell.value 0, IFCell.arg 3]]).2) = false) :=
  item_init_mutates_interaction_fns "b" [1] [2] [0] [0] true .constant [5]
    [[IFCell.fn .zero, IFCell.arg 3]] _ rfl

/-- C3: constructing a SimulatorConfig with an empty item list, with items
whose scent or color vectors do not all have the same dimensionality, with
an agent_color whose length differs from the item color dimensionality, or
with any item whose required_item_counts, required_item_costs, or
interaction_fns list does not have exactly one entry per item type, raises
an error at configuration build time. -/
theorem simulatorConfig_init_rejects_invalid
    (msm : Nat) (amd atd : List ActionPolicy) (noa : Bool)
    (vr ps mni : Nat) (items : List Item) (agent_color : List Rat)
    (cp : MovementConflictPolicy) (dp dfp : Rat) (dil sd : Nat)
    (hbad : items = []
      ∨ (∃ i ∈ items, ∃ j ∈ items, i.scent.length ≠ j.scent.length)
      ∨ (∃ i ∈ items, ∃ j ∈ items, i.color.length ≠ j.color.length)
      ∨ agent_color.length ≠ (items.headD dfltItem).color.length
      ∨ (∃ i ∈ items, i.required_item_counts.length ≠ items.length)
      ∨ (∃ i ∈ items, i.required_item_costs.length ≠ items.length)
      ∨ (∃ i ∈ items, i.interaction_fns.length ≠ items.length)) :
    isOkE (SimulatorConfig.init msm amd atd noa vr ps mni items agent_color
      cp dp dfp dil sd) = false := by
  unfold SimulatorConfig.init
  by_cases h0 : items.length = 0
  · rw [if_pos h0]; rfl
  · rw [if_neg h0]
    by_cases h1 : agent_color.length ≠ (items.headD dfltItem).color.length
    · rw [if_pos h1]; rfl
    · rw [if_neg h1]
      by_cases h2 : ¬ (∀ i ∈ items, i.scent.length = (items.headD dfltItem).scent.length)
      · rw [if_pos h2]; rfl
      · rw [if_neg h2]
        by_cases h3 : ¬ (∀ i ∈ items, i.color.length = (items.headD dfltItem).color.length)
        · rw [if_pos h3]; rfl
        · rw [if_neg h3]
          by_cases h4 : ¬ (∀ i ∈ items, i.required_item_counts.length = items.length)
          · rw [if_pos h4]; rfl
          · rw [if_neg h4]
            by_cases h5 : ¬ (∀ i ∈ items, i.required_item_costs.length = items.length)
            · rw [if_pos h5]; rfl
            · rw [if_neg h5]
              by_cases h6 : ¬ (∀ i ∈ items, i.interaction_fns.length = items.length)
              · rw [if_pos h6]; rfl
              · exfalso
                rw [not_not] at h2 h3 h4 h5 h6
                rw [not_ne_iff] at h1
                rcases hbad with hb | hb | hb | hb | hb | hb | hb
                · exact h0 (by rw [hb]; rfl)
                · obtain ⟨i, hi, j, hj, hij⟩ := hb
                  exact hij ((h2 i hi).trans (h2 j hj).symm)
                · obtain ⟨i, hi, j, hj, hij⟩ := hb
                  exact hij ((h3 i hi).trans (h3 j hj).symm)
                · exact hb h1
                · obtain ⟨i, hi, hlen⟩ := hb
                  exact hlen (h4 i hi)
                · obtain ⟨i, hi, hlen⟩ := hb
                  exact hlen (h5 i hi)
                · obtain ⟨i, hi, hlen⟩ := hb
                  exact hlen (h6 i hi)

/-- Witness for C3: an item whose required_item_counts vector is too short
for the two-item catalog is rejected. -/
theorem simulatorConfig_init_rejects_invalid_witness :
    isOkE (SimulatorConfig.init 1 [] [] true 1 8 10
      [⟨"banana", [1], [1], [0], [0, 0], false, 1, [], [[], []]⟩,
       ⟨"onion", [1], [1], [0, 0], [0, 0], false, 1, [], [[], []]⟩]
      [1] .NO_COLLISIONS 0 0 100 0) = false :=
  simulatorConfig_init_rejects_invalid 1 [] [] true 1 8 10 _ [1]
    .NO_COLLISIONS 0 0 100 0
    (Or.inr (Or.inr (Or.inr (Or.inr (Or.inl
      ⟨⟨"banana", [1], [1], [0], [0, 0], false, 1, [], [[], []]⟩,
        by simp, by simp⟩)))))

/-- Helper: whatever the save branch does, the post-callback simulator state
has time incremented and the message updates applied. -/
theorem stepCallback_fst (s : PySimulator) (msgs : List AgentStateMsg) :
    (stepCallback s msgs).1 =
      { s with time := s.time + 1, agents := applyMsgs s.agents msgs } := by
  unfold stepCallback
  cases hsp : s.save_filepath with
  | none => rfl
  | some fp =>
    by_cases h : (s.time + 1) % s.save_frequency = 0 <;> simp [h]

/-- Helper: updating the agent map with one message rewrites exactly the
entry with the message's id. -/
theorem lookupA_updateAgent_self (ags : List (Nat × AgentObs))
    (m : AgentStateMsg) (v : AgentObs) (h : lookupA ags m.id = some v) :
    lookupA (updateAgent ags m) m.id = some (applyMsg v m) := by
  induction ags with
  | nil => simp [lookupA] at h
  | cons kv rest ih =>
    simp only [updateAgent, List.map_cons] at *
    by_cases hk : m.id = kv.1
    · rw [lookupA, if_pos hk] at h
      injection h with h
      subst h
      rw [if_pos hk.symm]
      simp [lookupA, hk]
    · rw [lookupA, if_neg hk] at h
      rw [if_neg (fun e => hk e.symm)]
      simp only [lookupA, if_neg hk]
      exact ih h

/-- Helper: updating the agent map with a message whose id differs leaves a
key's lookup unchanged. -/
theorem lookupA_updateAgent_other (ags : List (Nat × AgentObs))
    (m : AgentStateMsg) (k : Nat) (h : k ≠ m.id) :
    lookupA (updateAgent ags m) k = lookupA ags k := by
  induction ags with
  | nil => rfl
  | cons kv rest ih =>
    simp only [updateAgent, List.map_cons] at *
    by_cases hm : kv.1 = m.id
    · have hk : ¬ k = kv.1 := fun e => h (by rw [e, hm])
      rw [if_pos hm]
      simp only [lookupA, if_neg hk]
      exact ih
    · rw [if_neg hm]
      by_cases hk : k = kv.1
      · simp [lookupA, hk]
      · simp only [lookupA, if_neg hk]
        exact ih

/-- Helper: ids not mentioned by any message are untouched by the update
loop of the step callback. -/
theorem lookupA_applyMsgs_other (msgs : List AgentStateMsg)
    (ags : List (Nat × AgentObs)) (k : Nat)
    (h : k ∉ msgs.map AgentStateMsg.id) :
    lookupA (applyMsgs ags msgs) k = lookupA ags k := by
  induction msgs generalizing ags with
  | nil => rfl
  | cons m rest ih =>
    simp only [List.map_cons, List.mem_cons, not_or] at h
    have hstep : applyMsgs ags (m :: rest) = applyMsgs (updateAgent ags m) rest := rfl
    rw [hstep, ih (updateAgent ags m) h.2]
    exact lookupA_updateAgent_other ags m k h.1

/-- Helper: with pairwise-distinct message ids, the update loop stores each
message's fields for its agent. -/
theorem lookupA_applyMsgs_self (msgs : List AgentStateMsg)
    (ags : List (Nat × AgentObs)) (m : AgentStateMsg) (v : AgentObs)
    (hnd : (msgs.map AgentStateMsg.id).Nodup)
    (hm : m ∈ msgs) (hv : lookupA ags m.id = some v) :
    lookupA (applyMsgs ags msgs) m.id = some (applyMsg v m) := by
  induction msgs generalizing ags with
  | nil => cases hm
  | cons x rest ih =>
    have hstep : applyMsgs ags (x :: rest) = applyMsgs (updateAgent ags x) rest := rfl
    rw [hstep]
    rw [List.map_cons, List.nodup_cons] at hnd
    rcases List.mem_cons.mp hm with rfl | hmr
    · rw [lookupA_applyMsgs_other rest (updateAgent ags m) m.id hnd.1]
      exact lookupA_updateAgent_self ags m v hv
    · have hne : m.id ≠ x.id := by
        intro e
        exact hnd.1 (e ▸ List.mem_map_of_mem AgentStateMsg.id hmr)
      exact ih (updateAgent ags x) hnd.2 hmr
        (by rw [lookupA_updateAgent_other ags x m.id hne]; exact hv)

/-- C7: every step notification delivered to a simulator increments the
value returned by `time()` by exactly one, and in the same single
post-callback state every notified agent's stored observation is the state
delivered with that notification — the new logical time and the updated
agent states are components of one atomic state transition. -/
theorem stepCallback_increments_time_atomically
    (s : PySimulator) (msgs : List AgentStateMsg)
    (hnd : (msgs.map AgentStateMsg.id).Nodup) :
    (stepCallback s msgs).1.time = s.time + 1 ∧
    ∀ m ∈ msgs, ∀ v, lookupA s.agents m.id = some v →
      lookupA (stepCallback s msgs).1.agents m.id = some (applyMsg v m) := by
  rw [stepCallback_fst]
  exact ⟨rfl, fun m hm v hv => lookupA_applyMsgs_self msgs s.agents m v hnd hm hv⟩

/-- Witness for C7: a one-agent simulator at time 5 receiving one state
tuple. -/
theorem stepCallback_increments_time_atomically_witness :
    (stepCallback ⟨5, [(3, ⟨(0, 0), 0, [], [], [], "mod.A"⟩)], none, 1000⟩
        [⟨(1, 0), 1, [2], [3], [4], 3⟩]).1.time = 5 + 1 ∧
    lookupA (stepCallback ⟨5, [(3, ⟨(0, 0), 0, [], [], [], "mod.A"⟩)], none, 1000⟩
        [⟨(1, 0), 1, [2], [3], [4], 3⟩]).1.agents 3 =
      some (applyMsg ⟨(0, 0), 0, [], [], [], "mod.A"⟩ ⟨(1, 0), 1, [2], [3], [4], 3⟩) := by
  have h := stepCallback_increments_time_atomically
    ⟨5, [(3, ⟨(0, 0), 0, [], [], [], "mod.A"⟩)], none, 1000⟩
    [⟨(1, 0), 1, [2], [3], [4], 3⟩] (by simp)
  exact ⟨h.1, h.2 ⟨(1, 0), 1, [2], [3], [4], 3⟩ (by simp) _ rfl⟩

/-- C8: with a save path configured, the step callback takes a snapshot
exactly when the post-step logical time is a multiple of the configured
save frequency, and the snapshot consists of the world snapshot file keyed
by that time, one agent-info index file with one line per agent mapping its
id to its implementation identifier, and one state file per agent. -/
theorem stepCallback_snapshot_schedule_and_shape
    (s : PySimulator) (msgs : List AgentStateMsg) (fp : String)
    (hfp : s.save_filepath = some fp) :
    ((stepCallback s msgs).2 ≠ none ↔ (s.time + 1) % s.save_frequency = 0) ∧
    ∀ snap, (stepCallback s msgs).2 = some snap →
      snap.worldFile = fp ++ toString (s.time + 1) ∧
      snap.agentInfoFile = fp ++ toString (s.time + 1) ++ ".agent_info" ∧
      snap.agentInfoLines =
        (applyMsgs s.agents msgs).map (fun kv => (kv.1, kv.2.implId)) ∧
      snap.agentStateFiles =
        (applyMsgs s.agents msgs).map
          (fun kv => fp ++ toString (s.time + 1) ++ ".agent" ++ toString kv.1) := by
  unfold stepCallback
  rw [hfp]
  by_cases h : (s.time + 1) % s.save_frequency = 0
  · simp only [if_pos h]
    refine ⟨by simp [h], ?_⟩
    intro snap hsnap
    injection hsnap with hsnap
    subst hsnap
    exact ⟨rfl, rfl, rfl, rfl⟩
  · simp only [if_neg h]
    refine ⟨by simp [h], ?_⟩
    intro snap hsnap
    cases hsnap

/-- Witness for C8: a one-agent simulator at time 9 with save frequency 5
saves at post-step time 10. -/
theorem stepCallback_snapshot_schedule_and_shape_witness :
    ((stepCallback ⟨9, [(0, ⟨(0, 0), 0, [], [], [], "mod.B"⟩)], some "st", 5⟩ []).2 ≠ none ↔
      (9 + 1) % 5 = 0) ∧
    ((⟨"st" ++ toString (9 + 1), "st" ++ toString (9 + 1) ++ ".agent_info",
        [(0, "mod.B")],
        ["st" ++ toString (9 + 1) ++ ".agent" ++ toString 0]⟩ : Snapshot).worldFile =
        "st" ++ toString (9 + 1) ∧
      (⟨"st" ++ toString (9 + 1), "st" ++ toString (9 + 1) ++ ".agent_info",
        [(0, "mod.B")],
        ["st" ++ toString (9 + 1) ++ ".agent" ++ toString 0]⟩ : Snapshot).agentInfoFile =
        "st" ++ toString (9 + 1) ++ ".agent_info" ∧
      (⟨"st" ++ toString (9 + 1), "st" ++ toString (9 + 1) ++ ".agent_info",
        [(0, "mod.B")],
        ["st" ++ toString (9 + 1) ++ ".agent" ++ toString 0]⟩ : Snapshot).agentInfoLines =
        (applyMsgs [(0, ⟨(0, 0), 0, [], [], [], "mod.B"⟩)] []).map
          (fun kv => (kv.1, kv.2.implId)) ∧
      (⟨"st" ++ toString (9 + 1), "st" ++ toString (9 + 1) ++ ".agent_info",
        [(0, "mod.B")],
        ["st" ++ toString (9 + 1) ++ ".agent" ++ toString 0]⟩ : Snapshot).agentStateFiles =
        (applyMsgs [(0, ⟨(0, 0), 0, [], [], [], "mod.B"⟩)] []).map
          (fun kv => "st" ++ toString (9 + 1) ++ ".agent" ++ toString kv.1)) :=
  ⟨(stepCallback_snapshot_schedule_and_shape
      ⟨9, [(0, ⟨(0, 0), 0, [], [], [], "mod.B"⟩)], some "st", 5⟩ [] "st" rfl).1,
   (stepCallback_snapshot_schedule_and_shape
      ⟨9, [(0, ⟨(0, 0), 0, [], [], [], "mod.B"⟩)], some "st", 5⟩ [] "st" rfl).2 _ rfl⟩

/-- Helper: unfolding one step of the generation fold. -/
theorem foldGen_cons (cfg : SpecConfig) (st : Store) (c : Int × Int)
    (rest : List (Int × Int)) :
    foldGen cfg st (c :: rest) =
      ((c, (getOrGenerate cfg st c).1) ::
        (foldGen cfg (getOrGenerate cfg st c).2 rest).1,
       (foldGen cfg (getOrGenerate cfg st c).2 rest).2) := rfl

/-- Helper: generation never changes an existing store entry. -/
theorem find_getOrGenerate (cfg : SpecConfig) (st : Store) (c c2 : Int × Int)
    (p : Patch) (h : Store.find st c = some p) :
    Store.find (getOrGenerate cfg st c2).2 c = some p := by
  unfold getOrGenerate
  cases hf : Store.find st c2 with
  | some q => exact h
  | none =>
    simp only [Store.find]
    rw [if_neg ?_]
    · exact h
    · intro e
      rw [e] at h
      rw [h] at hf
      cases hf

/-- Helper: after generation, the requested coordinate is in the store with
the returned patch. -/
theorem find_getOrGenerate_self (cfg : SpecConfig) (st : Store) (c : Int × Int) :
    Store.find (getOrGenerate cfg st c).2 c = some (getOrGenerate cfg st c).1 := by
  unfold getOrGenerate
  cases hf : Store.find st c with
  | some q => exact hf
  | none => simp [Store.find]

/-- Helper: generating a coordinate already in the store returns the stored
patch and leaves the store unchanged. -/
theorem getOrGenerate_of_find (cfg : SpecConfig) (st : Store) (c : Int × Int)
    (p : Patch) (h : Store.find st c = some p) :
    getOrGenerate cfg st c = (p, st) := by
  unfold getOrGenerate
  rw [h]

/-- Helper: the generation fold never changes an existing store entry: a
patch, once in the store, is never regenerated or resampled. -/
theorem find_foldGen_mono (cfg : SpecConfig) (l : List (Int × Int))
    (st : Store) (c : Int × Int) (p : Patch)
    (h : Store.find st c = some p) :
    Store.find (foldGen cfg st l).2 c = some p := by
  induction l generalizing st with
  | nil => exact h
  | cons c2 rest ih =>
    rw [foldGen_cons]
    exact ih _ (find_getOrGenerate cfg st c c2 p h)

/-- Helper: running the generation fold a second time over the same
coordinates returns the same contents and leaves the store unchanged. -/
theorem foldGen_idem (cfg : SpecConfig) (l : List (Int × Int)) (st : Store) :
    foldGen cfg (foldGen cfg st l).2 l = foldGen cfg st l := by
  induction l generalizing st with
  | nil => rfl
  | cons c rest ih =>
    rw [foldGen_cons cfg st c rest]
    have hfind : Store.find (foldGen cfg (getOrGenerate cfg st c).2 rest).2 c =
        some (getOrGenerate cfg st c).1 :=
      find_foldGen_mono cfg rest _ c _ (find_getOrGenerate_self cfg st c)
    rw [foldGen_cons, getOrGenerate_of_find cfg _ c _ hfind,
        ih ((getOrGenerate cfg st c).2)]

/-- C4: map queries are idempotent with respect to generated content: any
patch already in the store before a query keeps exactly its contents (it is
never regenerated or resampled), and repeating the same bounding-box query
returns the same patch list and leaves the store unchanged. -/
theorem queryMap_idempotent_fixed_patches (cfg : SpecConfig) (st : Store)
    (bl tr : Int × Int) :
    (∀ c p, Store.find st c = some p →
      Store.find (queryMap cfg st bl tr).2 c = some p) ∧
    queryMap cfg (queryMap cfg st bl tr).2 bl tr = queryMap cfg st bl tr :=
  ⟨fun c p h => find_foldGen_mono cfg _ st c p h, foldGen_idem cfg _ st⟩

/-- Witness for C4 at a concrete configuration, a store already holding the
origin patch, and the unit bounding box at the origin. -/
theorem queryMap_idempotent_fixed_patches_witness :
    Store.find (queryMap ⟨1, 2, 1, .NO_COLLISIONS, [⟨[1], false, [0], [0]⟩], 0⟩
        [((0, 0), ⟨true, []⟩)] (0, 0) (0, 0)).2 (0, 0) = some ⟨true, []⟩ ∧
    queryMap ⟨1, 2, 1, .NO_COLLISIONS, [⟨[1], false, [0], [0]⟩], 0⟩
        (queryMap ⟨1, 2, 1, .NO_COLLISIONS, [⟨[1], false, [0], [0]⟩], 0⟩
          [((0, 0), ⟨true, []⟩)] (0, 0) (0, 0)).2 (0, 0) (0, 0) =
      queryMap ⟨1, 2, 1, .NO_COLLISIONS, [⟨[1], false, [0], [0]⟩], 0⟩
        [((0, 0), ⟨true, []⟩)] (0, 0) (0, 0) :=
  ⟨(queryMap_idempotent_fixed_patches _ _ _ _).1 (0, 0) ⟨true, []⟩ (by decide),
   (queryMap_idempotent_fixed_patches _ _ _ _).2⟩

/-- Helper: what success under NO_COLLISIONS means, pointwise. -/
theorem ncOk_iff (l : List ((Int × Int) × (Int × Int))) (k : Nat) :
    ncOk l k = true ↔ ∀ j, j < l.length → j ≠ k →
      destP l k ≠ destP l j ∧ destP l k ≠ curP l j := by
  unfold ncOk
  rw [List.all_eq_true]
  constructor
  · intro h j hj hjk
    have hh := h j (List.mem_range.mpr hj)
    rw [Bool.or_eq_true, Bool.and_eq_true] at hh
    rcases hh with he | ⟨hd, hc⟩
    · exact absurd (eq_of_beq he) hjk
    · exact ⟨of_decide_eq_true hd, of_decide_eq_true hc⟩
  · intro h x hx
    rw [List.mem_range] at hx
    by_cases he : x = k
    · simp [he]
    · have hh := h x hx he
      simp [he, hh.1, hh.2]

/-- C5: under NO_COLLISIONS, from any state whose agents occupy pairwise
distinct cells, after one step's resolution the agents again occupy
pairwise distinct cells (so no two agents ever share a cell in any
reachable state), and whenever two agents' resolved destinations coincide
in the same step both moves fail and both agents stay in place. -/
theorem noCollisions_resolution_exclusive
    (l : List ((Int × Int) × (Int × Int)))
    (hdist : ∀ i j, i < l.length → j < l.length → i ≠ j →
      curP l i ≠ curP l j) :
    (∀ i j, i < l.length → j < l.length → i ≠ j →
      ncPost l i ≠ ncPost l j) ∧
    (∀ i j, i < l.length → j < l.length → i ≠ j → destP l i = destP l j →
      ncPost l i = curP l i ∧ ncPost l j = curP l j) := by
  constructor
  · intro i j hi hj hij
    unfold ncPost
    by_cases hoi : ncOk l i = true
    · rw [if_pos hoi]
      have hi2 := (ncOk_iff l i).mp hoi j hj (fun e => hij e.symm)
      by_cases hoj : ncOk l j = true
      · rw [if_pos hoj]
        exact hi2.1
      · rw [if_neg hoj]
        exact hi2.2
    · rw [if_neg hoi]
      by_cases hoj : ncOk l j = true
      · rw [if_pos hoj]
        have hj2 := (ncOk_iff l j).mp hoj i hi hij
        exact fun e => hj2.2 e.symm
      · rw [if_neg hoj]
        exact hdist i j hi hj hij
  · intro i j hi hj hij hdd
    have hoi : ¬ ncOk l i = true := fun ho =>
      ((ncOk_iff l i).mp ho j hj (fun e => hij e.symm)).1 hdd
    have hoj : ¬ ncOk l j = true := fun ho =>
      ((ncOk_iff l j).mp ho i hi hij).1 hdd.symm
    unfold ncPost
    rw [if_neg hoi, if_neg hoj]
    exact ⟨rfl, rfl⟩

/-- Witness for C5: two agents at distinct cells both resolved to the same
destination cell both stay in place, and the post-resolution cells stay
distinct. -/
theorem noCollisions_resolution_exclusive_witness :
    ncPost [((0, 0), (1, 0)), ((2, 0), (1, 0))] 0 ≠
      ncPost [((0, 0), (1, 0)), ((2, 0), (1, 0))] 1 ∧
    (ncPost [((0, 0), (1, 0)), ((2, 0), (1, 0))] 0 =
      curP [((0, 0), (1, 0)), ((2, 0), (1, 0))] 0 ∧
     ncPost [((0, 0), (1, 0)), ((2, 0), (1, 0))] 1 =
      curP [((0, 0), (1, 0)), ((2, 0), (1, 0))] 1) := by
  have hdist : ∀ i j, i < ([((0, 0), (1, 0)), ((2, 0), (1, 0))] :
      List ((Int × Int) × (Int × Int))).length →
      j < ([((0, 0), (1, 0)), ((2, 0), (1, 0))] :
        List ((Int × Int) × (Int × Int))).length → i ≠ j →
      curP [((0, 0), (1, 0)), ((2, 0), (1, 0))] i ≠
        curP [((0, 0), (1, 0)), ((2, 0), (1, 0))] j := by
    intro i j hi hj hij
    have hi2 : i < 2 := by simpa using hi
    have hj2 : j < 2 := by simpa using hj
    interval_cases i <;> interval_cases j <;>
      first
        | exact absurd rfl hij
        | decide
  have h := noCollisions_resolution_exclusive
    [((0, 0), (1, 0)), ((2, 0), (1, 0))] hdist
  exact ⟨h.1 0 1 (by decide) (by decide) (by decide),
    h.2 0 1 (by decide) (by decide) (by decide) (by decide)⟩

/-- Helper: indexing a range-map at an in-range position. -/
theorem getD_range_map (f : Nat → Nat) (n j : Nat) (h : j < n) :
    ((List.range n).map f).getD j 0 = f j := by
  rw [List.getD_eq_getElem?_getD, List.getElem?_map, List.getElem?_range h]
  rfl

/-- C6: an item type whose required_item_counts entry for type j is k is
never auto-collected by an agent whose running collected count of type j is
below k; and when collection does occur, the item is removed from the cell,
the collected type's count is incremented, and required_item_costs is
deducted from the count of each type. -/
theorem autoCollect_requirements_and_costs
    (types : List SpecItemType) (counts : List Nat) (t : Nat)
    (ht : t < types.length) :
    (∀ j, j < types.length →
      counts.getD j 0 < (types.getD t dfltType).required_item_counts.getD j 0 →
      autoCollect types (some t) counts = (some t, counts)) ∧
    (canCollect types counts t = true →
      (autoCollect types (some t) counts).1 = none ∧
      ∀ j, j < types.length →
        (autoCollect types (some t) counts).2.getD j 0 =
          counts.getD j 0 + (if j = t then 1 else 0)
            - (types.getD t dfltType).required_item_costs.getD j 0) := by
  constructor
  · intro j hj hlow
    have hcc : ¬ canCollect types counts t = true := by
      unfold canCollect
      rw [Bool.and_eq_true]
      rintro ⟨-, hall⟩
      rw [List.all_eq_true] at hall
      have hh := hall j (List.mem_range.mpr hj)
      rw [decide_eq_true_iff] at hh
      omega
    have hred : autoCollect types (some t) counts =
        if canCollect types counts t = true then (none, newCounts types counts t)
        else (some t, counts) := rfl
    rw [hred, if_neg hcc]
  · intro hcc
    have hred : autoCollect types (some t) counts =
        if canCollect types counts t = true then (none, newCounts types counts t)
        else (some t, counts) := rfl
    rw [hred, if_pos hcc]
    refine ⟨rfl, ?_⟩
    intro j hj
    unfold newCounts
    exact getD_range_map _ types.length j hj

/-- Witness for C6: a single item type requiring two of itself; an agent
holding none cannot collect it, an agent holding five collects it, pays the
cost of one, and gains the collected unit. -/
theorem autoCollect_requirements_and_costs_witness :
    autoCollect [⟨[1], false, [2], [1]⟩] (some 0) [0] = (some 0, [0]) ∧
    ((autoCollect [⟨[1], false, [2], [1]⟩] (some 0) [5]).1 = none ∧
      (autoCollect [⟨[1], false, [2], [1]⟩] (some 0) [5]).2.getD 0 0 =
        ([5] : List Nat).getD 0 0 + (if 0 = 0 then 1 else 0)
          - (([⟨[1], false, [2], [1]⟩] :
              List SpecItemType).getD 0 dfltType).required_item_costs.getD 0 0) :=
  ⟨(autoCollect_requirements_and_costs [⟨[1], false, [2], [1]⟩] [0] 0
      (by decide)).1 0 (by decide) (by decide),
   ((autoCollect_requirements_and_costs [⟨[1], false, [2], [1]⟩] [5] 0
      (by decide)).2 (by decide)).1,
   ((autoCollect_requirements_and_costs [⟨[1], false, [2], [1]⟩] [5] 0
      (by decide)).2 (by decide)).2 0 (by decide)⟩

/-- C9: when two agents issue moves into the same empty, non-blocking cell
in the same step under FIRST_COME_FIRST_SERVED (list order is intent
arrival order), the first-arriving agent's move succeeds and it occupies
the cell after resolution, while the other agent's move returns failure
and it stays in place. -/
theorem fcfs_same_cell_single_winner (c1 c2 d : Int × Int)
    (h1 : c1 ≠ d) (h2 : c2 ≠ d) :
    fcfsOk [(c1, d), (c2, d)] 0 = true ∧
    fcfsPost [(c1, d), (c2, d)] 0 = d ∧
    fcfsOk [(c1, d), (c2, d)] 1 = false ∧
    fcfsPost [(c1, d), (c2, d)] 1 = c2 := by
  have hd1 : decide (destP [(c1, d), (c2, d)] 0 ≠ curP [(c1, d), (c2, d)] 1) = true :=
    decide_eq_true (Ne.symm h2)
  have hdd : decide (destP [(c1, d), (c2, d)] 1 ≠ destP [(c1, d), (c2, d)] 0) = false :=
    decide_eq_false (fun hne => hne rfl)
  have hOk0 : fcfsOk [(c1, d), (c2, d)] 0 = true := by
    unfold fcfsOk
    rw [show List.range ([(c1, d), (c2, d)].length) = [0, 1] from rfl]
    simp only [List.all_cons, List.all_nil]
    rw [hd1]
    rfl
  have hOk1 : fcfsOk [(c1, d), (c2, d)] 1 = false := by
    unfold fcfsOk
    rw [show List.range 1 = [0] from rfl]
    simp only [List.all_cons, List.all_nil]
    rw [hdd]
    simp
  refine ⟨hOk0, ?_, hOk1, ?_⟩
  · unfold fcfsPost
    rw [if_pos hOk0]
    rfl
  · unfold fcfsPost
    rw [if_neg (by rw [hOk1]; exact Bool.false_ne_true)]
    rfl

/-- Witness for C9 at concrete cells. -/
theorem fcfs_same_cell_single_winner_witness :
    fcfsOk [((0, 0), (1, 0)), ((2, 0), (1, 0))] 0 = true ∧
    fcfsPost [((0, 0), (1, 0)), ((2, 0), (1, 0))] 0 = (1, 0) ∧
    fcfsOk [((0, 0), (1, 0)), ((2, 0), (1, 0))] 1 = false ∧
    fcfsPost [((0, 0), (1, 0)), ((2, 0), (1, 0))] 1 = (2, 0) :=
  fcfs_same_cell_single_winner (0, 0) (2, 0) (1, 0) (by decide) (by decide)

end JBW
